import Mathlib

/-!
Verification development for the pixelpilot_stripped_rk2 ingest-and-dispatch
core.  The C sources (config.c, config_ini.c, udp_receiver.c, main.c and the
pipeline translation unit) are shallowly embedded: C strings become `List Char`
(`CStr`), C `int` becomes `Int` with explicit 32-bit wrapping where the source
casts, fallible calls become `Option`, and the effectful loops become pure
step functions over explicit environments recording the outcome of each
system call.
-/

namespace PixelPilot

/-- C strings (the bytes before the terminating NUL). -/
abbrev CStr := List Char

/-- `isspace` in the C locale: space, \t, \n, \v, \f, \r. -/
def cIsSpace (c : Char) : Bool :=
  c = ' ' || c = '\t' || c = '\n' || c = '\x0b' || c = '\x0c' || c = '\r'

/-- Skip leading `isspace` characters (the `while (isspace(*begin)) begin++` idiom). -/
def dropLeadingSpaces : CStr → CStr
  | [] => []
  | c :: cs => if cIsSpace c then dropLeadingSpaces cs else c :: cs

/-- Erase trailing `isspace` characters (the tail half of `trim_whitespace`). -/
def dropTrailingSpaces (l : CStr) : CStr :=
  (dropLeadingSpaces l.reverse).reverse

/-- `trim_whitespace` from config_ini.c: trim both ends. -/
def trimSpaces (l : CStr) : CStr :=
  dropTrailingSpaces (dropLeadingSpaces l)

/-- Split a C string at the first character satisfying `p` (`strchr`/`strpbrk`):
returns the part before the found character and the part after it. -/
def splitAtChar (p : Char → Bool) : CStr → Option (CStr × CStr)
  | [] => none
  | c :: cs =>
    if p c then some ([], cs)
    else (splitAtChar p cs).map (fun q => (c :: q.1, q.2))

/-- ASCII lowercase of a C string (C-locale `tolower` applied pointwise). -/
def lcase (l : CStr) : CStr := l.map Char.toLower

/-- `strcasecmp(a, b) == 0`. -/
def strcaseEq (a b : CStr) : Bool := lcase a == lcase b

/-- `copy_string`/`cli_copy_string` into a buffer of size `cap + 1`:
`strnlen(src, cap)` bytes are copied and NUL-terminated, i.e. truncation
to `cap` characters. -/
def copy_string (cap : Nat) (v : CStr) : CStr := v.take cap

/-- Numeric value of a digit run (the accumulation strtol performs). -/
def natOfDigits (l : CStr) : Nat :=
  l.foldl (fun a c => a * 10 + (c.toNat - 48)) 0

/-- `strtol(value, &end, 10)` on a NUL-terminated string, modelled as:
skip leading whitespace, optional sign, a non-empty digit run.  Returns
`none` when no conversion was performed (`end == value`) or when trailing
non-digit characters remain (`*end != '\0'`), exactly the two conditions
`parse_int`/`parse_int_arg` reject.  The returned value is the mathematical
integer; the callers clamp and cast it. -/
def strtol_full (s : CStr) : Option Int :=
  let t := dropLeadingSpaces s
  let signed : Int × CStr :=
    match t with
    | '-' :: r => (-1, r)
    | '+' :: r => (1, r)
    | _ => (1, t)
  let digits := signed.2.takeWhile Char.isDigit
  let rest := signed.2.dropWhile Char.isDigit
  if digits = [] then none
  else if rest ≠ [] then none
  else some (signed.1 * (natOfDigits digits : Int))

/-- strtol saturates at the `long` range on overflow (errno is ignored
by both call sites). -/
def strtol_clamp (v : Int) : Int :=
  max (-(2 ^ 63)) (min v (2 ^ 63 - 1))

/-- The `(int)v` narrowing cast: two's-complement wrap to 32 bits. -/
def toInt32 (v : Int) : Int :=
  (v + 2 ^ 31) % 2 ^ 32 - 2 ^ 31

/-- `parse_int` (config_ini.c) and `parse_int_arg` (config.c): strtol with
full-token validation, then `*out = (int)v`.  `none` leaves `*out` untouched. -/
def parse_int_c (s : CStr) : Option Int :=
  (strtol_full s).map (fun v => toInt32 (strtol_clamp v))

/-- `parse_bool` from config_ini.c: `true|yes` case-insensitively or exactly
`"1"` give 1; `false|no` case-insensitively or exactly `"0"` give 0. -/
def parse_bool_c (s : CStr) : Option Int :=
  if strcaseEq s "true".toList || strcaseEq s "yes".toList || s = "1".toList then some 1
  else if strcaseEq s "false".toList || strcaseEq s "no".toList || s = "0".toList then some 0
  else none

/-! ## Record modes (config.h / config.c) -/

/-- `RecordMode` from config.h. -/
inductive RecordMode
  | standard
  | sequential
  | fragmented
deriving DecidableEq

/-- `kRecordModeAliases` from config.c. -/
def kRecordModeAliases : List (CStr × RecordMode) :=
  [("standard".toList, .standard),
   ("default".toList, .standard),
   ("sequential".toList, .sequential),
   ("append".toList, .sequential),
   ("fragmented".toList, .fragmented),
   ("fragment".toList, .fragmented)]

/-- `cfg_parse_record_mode`: first case-insensitive alias match, `none` when
no alias matches (the C function returns -1 and leaves `*mode_out` alone). -/
def cfg_parse_record_mode (value : CStr) : Option RecordMode :=
  (kRecordModeAliases.find? (fun a => strcaseEq value a.1)).map (fun a => a.2)

/-- `cfg_record_mode_name` from config.c. -/
def cfg_record_mode_name : RecordMode → CStr
  | .standard => "standard".toList
  | .sequential => "sequential".toList
  | .fragmented => "fragmented".toList

/-! ## Configuration data (config.h) -/

/-- `RecordCfg` from config.h (`enable` is a C int holding 0/1,
`output_path` is `char[PATH_MAX]`). -/
structure RecordCfg where
  enable : Int
  output_path : CStr
  mode : RecordMode
deriving DecidableEq

/-- `AppCfg` from config.h.  `card_path` is `char[64]`, `connector_name`
`char[32]`, `config_path` `char[PATH_MAX]`. -/
structure AppCfg where
  card_path : CStr
  connector_name : CStr
  config_path : CStr
  plane_id : Int
  udp_port : Int
  vid_pt : Int
  jitter_buffer_ms : Int
  appsink_max_buffers : Int
  gst_log : Int
  record : RecordCfg
deriving DecidableEq

/-- `cfg_defaults` from config.c (memset to zero, then the listed fields). -/
def cfg_defaults : AppCfg :=
  { card_path := "/dev/dri/card0".toList
    connector_name := []
    config_path := []
    plane_id := 76
    udp_port := 5600
    vid_pt := 97
    jitter_buffer_ms := 0
    appsink_max_buffers := 4
    gst_log := 0
    record := { enable := 0, output_path := "/media".toList, mode := .sequential } }

/-! ## RTP payload filter (udp_receiver.c) -/

/-- `payload_type_matches(data, len, expected_pt)`: negative expected type
accepts everything; otherwise the datagram must be at least 2 bytes long and
`data[1] & 0x7F` must equal `(guint8)expected_pt` (the C cast reduces the
non-negative `int` modulo 256).  A datagram is its byte list; `len` is its
length. -/
def payload_type_matches (data : List Nat) (expected_pt : Int) : Bool :=
  if expected_pt < 0 then true
  else if data.length < 2 then false
  else (data.getD 1 0) &&& 0x7F == expected_pt.toNat % 256

/-! ## UDP receive loop (udp_receiver.c, `receiver_thread`) -/

/-- Outcome of one non-blocking `recv(..., MSG_DONTWAIT)` call. -/
inductive RecvOutcome
  | wouldBlock
  | recvError
  | datagram (data : List Nat)
deriving DecidableEq

/-- The producer's view of the appsrc streaming source.  The pending-bytes
level is what `gst_app_src_get_current_level_bytes` would report; the field
exists so that theorems can quantify over downstream state. -/
structure AppSrcView where
  currentLevelBytes : Nat
deriving DecidableEq

/-- Outcomes of the buffer-acquisition calls inside one loop iteration:
pool activation+acquire (`ensure_buffer_pool` + `gst_buffer_pool_acquire_buffer`),
the `gst_buffer_new_allocate` fallback, `gst_buffer_map`, and the mapped size. -/
structure BufferEnv where
  poolAcquireOk : Bool
  freshAllocOk : Bool
  mapOk : Bool
  mapSize : Nat
deriving DecidableEq

/-- What one iteration of the `while (TRUE)` body in `receiver_thread` does. -/
inductive IterStep
  | exitLoop
  | sleepRetry
  | logAndContinue
  | dropEmpty
  | dropFiltered
  | dropNoBuffer
  | dropMapFailed
  | dropTooSmall
  | pushBuffer (payload : List Nat)
deriving DecidableEq

/-- One iteration of the receive loop, following the C control flow line by
line: stop check; recv; EAGAIN/EWOULDBLOCK/EINTR → 1 ms sleep; other errno →
log and continue; zero-length drop; payload filter; buffer acquisition (pool,
then fresh allocation); map; size check; `gst_app_src_push_buffer_full` with
`GST_APP_LEAK_TYPE_UPSTREAM` (non-blocking, ownership transfers even on a
non-OK flow return).  The source view `src` is an argument because the claims
quantify over it; the loop body itself never consults it. -/
def receiver_iteration (stop_requested : Bool) (vid_pt : Int)
    (outcome : RecvOutcome) (_src : AppSrcView) (bufs : BufferEnv) : IterStep :=
  if stop_requested then .exitLoop else
  match outcome with
  | .wouldBlock => .sleepRetry
  | .recvError => .logAndContinue
  | .datagram data =>
    if data.length = 0 then .dropEmpty
    else if payload_type_matches data vid_pt = false then .dropFiltered
    else if bufs.poolAcquireOk = false ∧ bufs.freshAllocOk = false then .dropNoBuffer
    else if bufs.mapOk = false then .dropMapFailed
    else if bufs.mapSize < data.length then .dropTooSmall
    else .pushBuffer data

/-- In `receiver_iteration`, `src.currentLevelBytes` has this watermark in
the specification; `UDP_RCVBUF_BYTES` in udp_receiver.c is the same constant
but is used only as the `SO_RCVBUF` value. -/
def UDP_RCVBUF_BYTES : Nat := 8 * 1024 * 1024

/-! ## Socket ingress start (udp_receiver.c, `udp_receiver_start`) -/

/-- Success/failure of each system call `udp_receiver_start` makes. -/
structure SocketEnv where
  socketOk : Bool
  reuseOk : Bool
  rcvbufOk : Bool
  fcntlGetOk : Bool
  fcntlSetOk : Bool
  bindOk : Bool
  threadOk : Bool
deriving DecidableEq

/-- The externally visible actions of `udp_receiver_start`, in order. -/
inductive SetupAction
  | createSocket
  | setReuseAddr
  | setRcvbuf (bytes : Nat)
  | setNonblocking
  | bindSocket (port : Int)
  | closeSocket
  | spawnWorker
deriving DecidableEq

/-- `udp_receiver_start`: returns the C return code together with the ordered
list of actions performed.  Mirrors the source: an already-running receiver
returns 0 immediately; `socket()` failure returns -1; `setsockopt` for
`SO_REUSEADDR` and `SO_RCVBUF` and the `O_NONBLOCK` fcntl are attempted and
their failures only logged (the `F_SETFL` call is attempted only when
`F_GETFL` succeeded); `bind()` failure closes the socket and returns -1;
`g_thread_new` failure closes the socket and returns -1; otherwise the worker
runs and 0 is returned. -/
def udp_receiver_start (running : Bool) (port : Int) (env : SocketEnv) :
    Int × List SetupAction :=
  if running then (0, [])
  else if env.socketOk = false then (-1, [.createSocket])
  else
    let acts : List SetupAction :=
      [.createSocket, .setReuseAddr, .setRcvbuf UDP_RCVBUF_BYTES] ++
        (if env.fcntlGetOk then [.setNonblocking] else []) ++
        [.bindSocket port]
    if env.bindOk = false then (-1, acts ++ [.closeSocket])
    else if env.threadOk = false then (-1, acts ++ [.closeSocket])
    else (0, acts ++ [.spawnWorker])

/-! ## Access-unit sink configuration (pipeline translation unit, `pipeline_start`) -/

/-- The `max-buffers` value handed to `gst_app_sink_set_max_buffers`:
`(cfg->appsink_max_buffers > 0) ? (guint)cfg->appsink_max_buffers : 12u`. -/
def pipeline_appsink_max_buffers (cfg_appsink_max_buffers : Int) : Nat :=
  if 0 < cfg_appsink_max_buffers then cfg_appsink_max_buffers.toNat else 12

/-- `gst_app_sink_set_drop(..., TRUE)`. -/
def pipeline_appsink_drop : Bool := true

/-- `"sync"` property on the appsink. -/
def pipeline_appsink_sync : Bool := false

/-- `"emit-signals"` property on the appsink. -/
def pipeline_appsink_emit_signals : Bool := false

/-! ## AU consumer (pipeline translation unit, `appsink_thread_func`) -/

/-- `video_decoder_max_packet_size` fallback: 1 MiB when the decoder
reports 0. -/
def appsink_max_packet (decoder_max_packet : Nat) : Nat :=
  if decoder_max_packet = 0 then 1024 * 1024 else decoder_max_packet

/-- Events the consumer thread can emit while handling one pulled sample. -/
inductive AuEvent
  | recLock
  | recDeliver
  | recUnlock
  | decoderFeed
deriving DecidableEq

/-- One pulled buffer: its mapped size, whether `gst_buffer_map` succeeded,
and its timestamps. -/
structure AuBuffer where
  size : Nat
  mapOk : Bool
  pts : Option Nat
  dts : Option Nat
deriving DecidableEq

/-- The PTS the consumer computes: buffer PTS when valid, else DTS. -/
def au_pts (buf : AuBuffer) : Option Nat :=
  match buf.pts with
  | some t => some t
  | none => buf.dts

/-- The ordered event trace of `appsink_thread_func` for one mapped sample:
when the size gate `0 < size && size <= max_packet` passes, the recorder lock
is taken, the sample is delivered to the recorder iff one is installed, the
lock is released, and only then is the decoder fed.  Outside the gate (or on
map failure) nothing is delivered anywhere. -/
def au_iteration_events (recorder_installed : Bool) (buf : AuBuffer)
    (max_packet : Nat) : List AuEvent :=
  if buf.mapOk = false then []
  else if 0 < buf.size ∧ buf.size ≤ max_packet then
    [.recLock] ++ (if recorder_installed then [.recDeliver] else []) ++
      [.recUnlock, .decoderFeed]
  else []

/-! ## Recording toggle (pipeline translation unit) -/

/-- `pipeline_enable_recording(ps, cfg)` restricted to the recorder slot.
Arguments: the currently installed recorder (as an abstract id), the record
cfg's output path, and the result of `video_recorder_new` for the freshly
constructed writer.  Returns the C return code, the recorder slot afterwards,
and whether the freshly built writer was discarded (`video_recorder_free`
on the new writer). -/
def pipeline_enable_recording (installed : Option Nat) (output_path : CStr)
    (new_writer : Option Nat) : Int × Option Nat × Bool :=
  if output_path = [] then (-1, installed, false)
  else
    match new_writer with
    | none => (-1, installed, false)
    | some w =>
      match installed with
      | some w0 => (0, some w0, true)
      | none => (0, some w, false)

/-- `pipeline_disable_recording(ps)` restricted to the recorder slot: detach
under the lock, free outside it.  Returns the slot afterwards and whether a
writer was destroyed. -/
def pipeline_disable_recording (installed : Option Nat) : Option Nat × Bool :=
  match installed with
  | some _ => (none, true)
  | none => (none, false)

/-! ## Pipeline lifecycle state machine (pipeline translation unit, main.c) -/

/-- `PipelineStateEnum` from pipeline.h. -/
inductive PipelineStateEnum
  | stopped
  | running
  | stopping
deriving DecidableEq, Fintype

/-- The fields of `PipelineState` that the lifecycle operations read or
write: the observable `state`, whether the bus-thread handle is non-NULL,
whether the bus thread is still in its loop, and the shared stop/error
flags. -/
structure PipelineSM where
  state : PipelineStateEnum
  busThread : Bool
  busRunning : Bool
  stopRequested : Bool
  encounteredError : Bool
deriving DecidableEq, Fintype

/-- `PipelineState ps = {0}; ps.state = PIPELINE_STOPPED;` in main.c. -/
def initialPS : PipelineSM :=
  { state := .stopped
    busThread := false
    busRunning := false
    stopRequested := false
    encounteredError := false }

/-- The lifecycle events: the three pipeline operations, plus the three ways
`bus_thread_func` leaves its loop (error message, EOS message, observing
`stop_requested` between polls).  `start`'s boolean collapses every failure
point of `pipeline_start` (element creation, linking, receiver start, PLAYING
transition, decoder init/start, thread spawns) into one flag, since every
failure path runs `cleanup_pipeline` and leaves `state` untouched. -/
inductive PipelineOp
  | start (ok : Bool)
  | stop
  | pollChild
  | busError
  | busEos
  | busObservesStop
deriving DecidableEq, Fintype

/-- One lifecycle event.  Returns the new shared state together with the
sequence of values assigned to the observable `ps->state` during the event
(`pipeline_stop` assigns STOPPING and then STOPPED in one call). -/
def pipeline_step (ps : PipelineSM) : PipelineOp → PipelineSM × List PipelineStateEnum
  | .start ok =>
    if ps.state ≠ .stopped then (ps, [])
    else if ok then
      let ps' : PipelineSM :=
        { state := .running
          busThread := true
          busRunning := true
          stopRequested := false
          encounteredError := false }
      (ps', [.running])
    else
      let ps' : PipelineSM :=
        { ps with
          busThread := false
          busRunning := false
          stopRequested := false
          encounteredError := false }
      (ps', [])
  | .stop =>
    if ps.state = .stopped then (ps, [])
    else
      let ps' : PipelineSM :=
        { state := .stopped
          busThread := false
          busRunning := false
          stopRequested := true
          encounteredError := ps.encounteredError }
      (ps', [.stopping, .stopped])
  | .pollChild =>
    if ps.busThread = false then (ps, [])
    else if ps.busRunning then (ps, [])
    else ({ ps with busThread := false, state := .stopped }, [.stopped])
  | .busError =>
    if ps.busRunning then
      ({ ps with busRunning := false, stopRequested := true, encounteredError := true }, [])
    else (ps, [])
  | .busEos =>
    if ps.busRunning then
      ({ ps with busRunning := false, stopRequested := true }, [])
    else (ps, [])
  | .busObservesStop =>
    if ps.busRunning ∧ ps.stopRequested then
      ({ ps with busRunning := false }, [])
    else (ps, [])

/-- Run a sequence of lifecycle events, collecting every assignment to the
observable state. -/
def pipeline_run (ps : PipelineSM) : List PipelineOp → PipelineSM × List PipelineStateEnum
  | [] => (ps, [])
  | op :: rest =>
    let r := pipeline_step ps op
    let r' := pipeline_run r.1 rest
    (r'.1, r.2 ++ r'.2)

/-- The observable state history of an event sequence started from the
freshly initialised `PipelineState`. -/
def observedStates (ops : List PipelineOp) : List PipelineStateEnum :=
  initialPS.state :: (pipeline_run initialPS ops).2

/-- The transitions the specification allows (staying put is not a
transition). -/
def specAllows : PipelineStateEnum → PipelineStateEnum → Bool
  | .stopped, .running => true
  | .running, .stopping => true
  | .stopping, .stopped => true
  | a, b => a == b

/-- The transitions the code actually performs: the specification's three
plus the direct `RUNNING → STOPPED` assignment in `pipeline_poll_child`. -/
def codeAllows : PipelineStateEnum → PipelineStateEnum → Bool
  | .running, .stopped => true
  | a, b => specAllows a b

/-! ## INI loader (config_ini.c) -/

/-- The C idiom `return parse_int(key, value, &cfg->field);`: parse an
integer value into one field, propagating the return code; on failure the
field (and so the whole configuration) is untouched. -/
def set_int_field (value : CStr) (write : Int → AppCfg) (cfg : AppCfg) : Int × AppCfg :=
  match parse_int_c value with
  | some v => (0, write v)
  | none => (-1, cfg)

/-- `return parse_bool(key, value, &cfg->field);`. -/
def set_bool_field (value : CStr) (write : Int → AppCfg) (cfg : AppCfg) : Int × AppCfg :=
  match parse_bool_c value with
  | some v => (0, write v)
  | none => (-1, cfg)

/-- The `RecordMode mode = cfg->...; if (cfg_parse_record_mode(value, &mode) == 0) ...`
idiom: install the parsed mode on success, report -1 leaving the
configuration untouched otherwise. -/
def set_mode_field (value : CStr) (write : RecordMode → AppCfg) (cfg : AppCfg) : Int × AppCfg :=
  match cfg_parse_record_mode value with
  | some m => (0, write m)
  | none => (-1, cfg)

/-- `handle_global_key(key, value, cfg)`: returns the C return code and the
configuration afterwards.  Key comparisons are case-insensitive
(`strcasecmp`/`strncasecmp`). -/
def handle_global_key (key value : CStr) (cfg : AppCfg) : Int × AppCfg :=
  if strcaseEq key "card_path".toList then
    (0, { cfg with card_path := copy_string 63 value })
  else if strcaseEq key "connector".toList ∨ strcaseEq key "connector_name".toList then
    (0, { cfg with connector_name := copy_string 31 value })
  else if strcaseEq key "plane_id".toList then
    set_int_field value (fun v => { cfg with plane_id := v }) cfg
  else if strcaseEq key "udp_port".toList then
    set_int_field value (fun v => { cfg with udp_port := v }) cfg
  else if strcaseEq key "vid_pt".toList ∨ strcaseEq key "video_payload_type".toList then
    set_int_field value (fun v => { cfg with vid_pt := v }) cfg
  else if strcaseEq key "appsink_max_buffers".toList then
    set_int_field value (fun v => { cfg with appsink_max_buffers := v }) cfg
  else if strcaseEq key "gst_log".toList then
    set_bool_field value (fun v => { cfg with gst_log := v }) cfg
  else if strcaseEq (key.take 7) "record.".toList then
    let sub := key.drop 7
    if strcaseEq sub "enable".toList then
      set_bool_field value (fun v => { cfg with record := { cfg.record with enable := v } }) cfg
    else if strcaseEq sub "output_path".toList ∨ strcaseEq sub "path".toList then
      (0, { cfg with record := { cfg.record with output_path := copy_string 4095 value } })
    else if strcaseEq sub "mode".toList then
      set_mode_field value (fun m => { cfg with record := { cfg.record with mode := m } }) cfg
    else (-1, cfg)
  else (-1, cfg)

/-- `handle_section_key(section, key, value, cfg)`. -/
def handle_section_key (sect key value : CStr) (cfg : AppCfg) : Int × AppCfg :=
  if strcaseEq sect "video".toList then handle_global_key key value cfg
  else if strcaseEq sect "record".toList then
    if strcaseEq key "enable".toList then
      set_bool_field value (fun v => { cfg with record := { cfg.record with enable := v } }) cfg
    else if strcaseEq key "output_path".toList ∨ strcaseEq key "path".toList then
      (0, { cfg with record := { cfg.record with output_path := copy_string 4095 value } })
    else if strcaseEq key "mode".toList then
      set_mode_field value (fun m => { cfg with record := { cfg.record with mode := m } }) cfg
    else (-1, cfg)
  else handle_global_key key value cfg

/-- `strpbrk(begin, "#;")` truncation. -/
def truncAtComment (l : CStr) : CStr :=
  match splitAtChar (fun c => c = '#' || c = ';') l with
  | some q => q.1
  | none => l

/-- What the body of the `fgets` loop in `cfg_load_file` makes of one raw
line: skip leading whitespace, cut at the first `#`/`;`, trim trailing
whitespace.  (A line whose first non-space character is `#` or `;` is skipped
by the explicit check in the source; cutting it to the empty string is the
same outcome.) -/
def effectiveContent (line : CStr) : CStr :=
  trimSpaces (truncAtComment (dropLeadingSpaces line))

/-- One iteration of the line loop of `cfg_load_file`, acting on the
`(section, cfg)` state.  Empty/comment lines are skipped; a `[...` line with
no `]` is skipped with a warning; otherwise the section buffer (31 chars) is
replaced; a line with no `=` is skipped with a warning; an empty key is
skipped; otherwise the key/value pair is dispatched to `handle_section_key`
(when a section is active) or `handle_global_key`, whose return code is
ignored. -/
def ini_process_line (st : CStr × AppCfg) (line : CStr) : CStr × AppCfg :=
  let content := effectiveContent line
  match content with
  | [] => st
  | c :: rest =>
    if c = '[' then
      match splitAtChar (fun d => d = ']') rest with
      | some q => (copy_string 31 q.1, st.2)
      | none => st
    else
      match splitAtChar (fun d => d = '=') content with
      | none => st
      | some q =>
        let key := trimSpaces q.1
        let value := trimSpaces q.2
        if key = [] then st
        else if st.1 ≠ [] then (st.1, (handle_section_key st.1 key value st.2).2)
        else (st.1, (handle_global_key key value st.2).2)

/-- `cfg_load_file(path, cfg)`.  The file is given as `none` when `fopen`
fails (the only -1 path besides NULL arguments) or `some lines` otherwise;
the section buffer starts empty and the per-line handler return codes are
ignored, so the loop always runs to completion and 0 is returned. -/
def cfg_load_file (file : Option (List CStr)) (cfg : AppCfg) : Option AppCfg :=
  match file with
  | none => none
  | some lines => some (lines.foldl ini_process_line ([], cfg)).2

/-! ## CLI parsing (config.c, `parse_cli`) -/

/-- The result of `parse_cli`: 1 (help shown), -1 (parse error), or 0 with
the populated configuration. -/
inductive CliResult
  | help
  | err
  | ok (cfg : AppCfg)
deriving DecidableEq

/-- The first `for` loop of `parse_cli`: scan the arguments one token at a
time for `--help`/`-h` (immediate return 1) and `--config` (record the path —
`config_path` is `char[PATH_MAX]` — and load the INI file immediately,
failing the parse when the load fails; the path token is consumed).  All
other tokens are skipped singly.  `files` maps a path to the lines of the
file it names, `none` when it cannot be opened. -/
def cli_config_pass (files : CStr → Option (List CStr)) :
    List CStr → AppCfg → CliResult
  | [], cfg => .ok cfg
  | arg :: rest, cfg =>
    if arg = "--help".toList ∨ arg = "-h".toList then .help
    else if arg = "--config".toList then
      match rest with
      | [] => .err
      | p :: rest' =>
        let cfg' := { cfg with config_path := copy_string 4095 p }
        match cfg_load_file (files cfg'.config_path) cfg' with
        | none => .err
        | some cfg'' => cli_config_pass files rest' cfg''
    else cli_config_pass files rest cfg

/-- The second `for` loop of `parse_cli`: apply every flag in order (the
`--config` pair is skipped, its work already done).  Missing arguments,
unparsable integers, unknown record modes and unknown options return -1.
`--verbose` only toggles the logger.  `--record-video` sets
`record.enable = 1` and consumes the next token as the output path exactly
when one exists and it does not start with `--`. -/
def cli_flags_pass : List CStr → AppCfg → CliResult
  | [], cfg => .ok cfg
  | arg :: rest, cfg =>
    if arg = "--config".toList then
      match rest with
      | [] => .ok cfg
      | _ :: rest' => cli_flags_pass rest' cfg
    else if arg = "--card".toList then
      match rest with
      | [] => .err
      | v :: rest' => cli_flags_pass rest' { cfg with card_path := copy_string 63 v }
    else if arg = "--connector".toList then
      match rest with
      | [] => .err
      | v :: rest' => cli_flags_pass rest' { cfg with connector_name := copy_string 31 v }
    else if arg = "--plane-id".toList then
      match rest with
      | [] => .err
      | v :: rest' =>
        match parse_int_c v with
        | none => .err
        | some n => cli_flags_pass rest' { cfg with plane_id := n }
    else if arg = "--udp-port".toList then
      match rest with
      | [] => .err
      | v :: rest' =>
        match parse_int_c v with
        | none => .err
        | some n => cli_flags_pass rest' { cfg with udp_port := n }
    else if arg = "--vid-pt".toList then
      match rest with
      | [] => .err
      | v :: rest' =>
        match parse_int_c v with
        | none => .err
        | some n => cli_flags_pass rest' { cfg with vid_pt := n }
    else if arg = "--appsink-max-buffers".toList then
      match rest with
      | [] => .err
      | v :: rest' =>
        match parse_int_c v with
        | none => .err
        | some n => cli_flags_pass rest' { cfg with appsink_max_buffers := n }
    else if arg = "--record-video".toList then
      let cfg' := { cfg with record := { cfg.record with enable := 1 } }
      match rest with
      | [] => cli_flags_pass [] cfg'
      | v :: rest' =>
        if v.take 2 ≠ "--".toList then
          cli_flags_pass rest'
            { cfg' with record := { cfg'.record with output_path := copy_string 4095 v } }
        else cli_flags_pass (v :: rest') cfg'
    else if arg = "--record-mode".toList then
      match rest with
      | [] => .err
      | v :: rest' =>
        match cfg_parse_record_mode v with
        | none => .err
        | some m => cli_flags_pass rest' { cfg with record := { cfg.record with mode := m } }
    else if arg = "--no-record-video".toList then
      cli_flags_pass rest { cfg with record := { cfg.record with enable := 0 } }
    else if arg = "--gst-log".toList then
      cli_flags_pass rest { cfg with gst_log := 1 }
    else if arg = "--verbose".toList then
      cli_flags_pass rest cfg
    else .err
termination_by args _ => args.length
decreasing_by all_goals simp [List.length_cons]; try omega

/-- `parse_cli(argc, argv, cfg)`: defaults, then the config-scanning first
loop (which applies the INI file), then the flag-applying second loop. -/
def parse_cli (files : CStr → Option (List CStr)) (args : List CStr) : CliResult :=
  match cli_config_pass files args cfg_defaults with
  | .ok cfg => cli_flags_pass args cfg
  | r => r

/-! ## Configuration keys shared by INI and CLI -/

/-- The configuration fields settable from both the INI file and CLI flags
(`config_path` is CLI-only and excluded). -/
inductive CfgField
  | cardPath
  | connectorName
  | planeId
  | udpPort
  | vidPt
  | appsinkMaxBuffers
  | gstLog
  | recordEnable
  | recordOutputPath
  | recordModeField
deriving DecidableEq

/-- Uniform view of a configuration field's value. -/
inductive CfgVal
  | s (v : CStr)
  | i (v : Int)
  | m (v : RecordMode)
deriving DecidableEq

/-- Project one field out of an `AppCfg`. -/
def getField : CfgField → AppCfg → CfgVal
  | .cardPath, c => .s c.card_path
  | .connectorName, c => .s c.connector_name
  | .planeId, c => .i c.plane_id
  | .udpPort, c => .i c.udp_port
  | .vidPt, c => .i c.vid_pt
  | .appsinkMaxBuffers, c => .i c.appsink_max_buffers
  | .gstLog, c => .i c.gst_log
  | .recordEnable, c => .i c.record.enable
  | .recordOutputPath, c => .s c.record.output_path
  | .recordModeField, c => .m c.record.mode

/-- Whether the second CLI loop writes the given field at least once for this
argument list, mirroring `cli_flags_pass` token for token (on argument lists
the loop rejects, the answer is irrelevant: the claims condition on a
successful parse). -/
def cli_sets_field : List CStr → CfgField → Bool
  | [], _ => false
  | arg :: rest, f =>
    if arg = "--config".toList then
      match rest with
      | [] => false
      | _ :: rest' => cli_sets_field rest' f
    else if arg = "--card".toList then
      match rest with
      | [] => false
      | _ :: rest' => f = .cardPath || cli_sets_field rest' f
    else if arg = "--connector".toList then
      match rest with
      | [] => false
      | _ :: rest' => f = .connectorName || cli_sets_field rest' f
    else if arg = "--plane-id".toList then
      match rest with
      | [] => false
      | _ :: rest' => f = .planeId || cli_sets_field rest' f
    else if arg = "--udp-port".toList then
      match rest with
      | [] => false
      | _ :: rest' => f = .udpPort || cli_sets_field rest' f
    else if arg = "--vid-pt".toList then
      match rest with
      | [] => false
      | _ :: rest' => f = .vidPt || cli_sets_field rest' f
    else if arg = "--appsink-max-buffers".toList then
      match rest with
      | [] => false
      | _ :: rest' => f = .appsinkMaxBuffers || cli_sets_field rest' f
    else if arg = "--record-video".toList then
      match rest with
      | [] => f = .recordEnable
      | v :: rest' =>
        if v.take 2 ≠ "--".toList then
          f = .recordEnable || f = .recordOutputPath || cli_sets_field rest' f
        else f = .recordEnable || cli_sets_field (v :: rest') f
    else if arg = "--record-mode".toList then
      match rest with
      | [] => false
      | _ :: rest' => f = .recordModeField || cli_sets_field rest' f
    else if arg = "--no-record-video".toList then
      f = .recordEnable || cli_sets_field rest f
    else if arg = "--gst-log".toList then
      f = .gstLog || cli_sets_field rest f
    else if arg = "--verbose".toList then
      cli_sets_field rest f
    else false
termination_by args _ => args.length
decreasing_by all_goals simp [List.length_cons]; try omega

/-- The key correctness property of the flag loop used to settle the
CLI-wins claim: a successful run from `cfg` yields, for any other starting
configuration `cfg₂`, a successful run whose result agrees on every field the
CLI writes, while fields the CLI does not write pass through from the
respective starting configurations. -/
def cli_preserves (args : List CStr) (cfg : AppCfg) : Prop :=
  ∀ cfg₂ c, cli_flags_pass args cfg = .ok c →
    ∃ c₂, cli_flags_pass args cfg₂ = .ok c₂ ∧
      ∀ f, (cli_sets_field args f = true → getField f c = getField f c₂) ∧
           (cli_sets_field args f = false →
             getField f c = getField f cfg ∧ getField f c₂ = getField f cfg₂)

/-! ## Theorems -/

/-- C9: parsing the name produced for each record mode yields the mode again:
`cfg_parse_record_mode(cfg_record_mode_name(m))` succeeds and returns `m` for
every `m` in STANDARD, SEQUENTIAL, FRAGMENTED. -/
theorem record_mode_roundtrip :
    ∀ m : RecordMode, cfg_parse_record_mode (cfg_record_mode_name m) = some m := by
  intro m
  cases m <;> decide

/-- C5 counterexample: with expected payload type 300 (reachable via
`--vid-pt 300`), the two-byte datagram `[0, 44]` is accepted by the filter —
the C comparison is against `(guint8)300 = 44` — although `44 & 0x7F` does
not equal 300, so the claimed acceptance condition is violated. -/
theorem payload_filter_claim_cex :
    payload_type_matches [0, 44] 300 = true ∧
    ¬(((([0, 44] : List Nat).getD 1 0) &&& 0x7F : Nat) : Int) = 300 := by
  constructor
  · decide
  · decide

/-- C5 (amended: the accepted payload type is the expected type reduced
modulo 256, because of the `(guint8)` cast): for non-negative expected type,
a datagram is accepted exactly when it has at least 2 bytes and
`byte[1] & 0x7F` equals `expected_pt mod 256`; a negative expected type
accepts every datagram. -/
theorem payload_filter_spec (data : List Nat) (pt : Int) :
    (0 ≤ pt →
      (payload_type_matches data pt = true ↔
        2 ≤ data.length ∧ (data.getD 1 0) &&& 0x7F = pt.toNat % 256)) ∧
    (pt < 0 → payload_type_matches data pt = true) := by
  constructor
  · intro hpt
    have hneg : ¬ pt < 0 := by omega
    by_cases hlen : data.length < 2
    · simp [payload_type_matches, hneg, hlen]
      try omega
    · simp [payload_type_matches, hneg, hlen]
      try omega
  · intro hpt
    simp [payload_type_matches, hpt]

/-- C5 witness: the default payload type 97 accepts the datagram whose
second byte is 0x61. -/
theorem payload_filter_spec_witness :
    (0 : Int) ≤ 97 ∧ payload_type_matches [0x80, 0x61] 97 = true :=
  ⟨by decide, ((payload_filter_spec [0x80, 0x61] 97).1 (by decide)).mpr (by decide)⟩

/-- C1 counterexample: with the streaming-source pending level one byte above
8 MiB, a filter-passing datagram is still pushed — the receive loop performs
no pending-bytes query at all, so the claimed drop does not happen. -/
theorem receiver_level_gate_cex :
    8 * 1024 * 1024 < (8 * 1024 * 1024 + 1 : Nat) ∧
    receiver_iteration false 97 (.datagram [0x80, 0x61]) ⟨8 * 1024 * 1024 + 1⟩
        ⟨true, true, true, 4096⟩ = .pushBuffer [0x80, 0x61] := by
  constructor
  · decide
  · decide

/-- C1 (amended: the producer never queries the pending-bytes level; its
iteration outcome is independent of downstream state, and every datagram that
passes the payload filter is pushed — non-blockingly, with leak-upstream
semantics — whatever the level is): the iteration result is unchanged under
any change of the source level, and a filter-passing datagram with a working
buffer/map is pushed. -/
theorem receiver_push_ignores_level (stop : Bool) (pt : Int) (oc : RecvOutcome)
    (lvl lvl' : Nat) (bufs : BufferEnv) :
    receiver_iteration stop pt oc ⟨lvl⟩ bufs =
      receiver_iteration stop pt oc ⟨lvl'⟩ bufs ∧
    (∀ data, oc = .datagram data → stop = false →
      data.length ≠ 0 → payload_type_matches data pt = true →
      (bufs.poolAcquireOk || bufs.freshAllocOk) = true → bufs.mapOk = true →
      data.length ≤ bufs.mapSize →
      receiver_iteration stop pt oc ⟨lvl⟩ bufs = .pushBuffer data) := by
  constructor
  · rfl
  · intro data hoc hstop hlen hmatch hbuf hmap hsize
    subst hoc
    subst hstop
    have hsz : ¬ bufs.mapSize < data.length := by omega
    have hnb : ¬ (bufs.poolAcquireOk = false ∧ bufs.freshAllocOk = false) := by
      rcases Bool.or_eq_true_iff.mp hbuf with h | h <;> simp [h]
    simp [receiver_iteration, hlen, hmatch, hnb, hmap, hsz]

/-- C1 witness: a concrete filter-passing datagram is pushed. -/
theorem receiver_push_ignores_level_witness :
    receiver_iteration false 97 (.datagram [0x80, 0x61]) ⟨0⟩
      ⟨true, true, true, 4096⟩ = .pushBuffer [0x80, 0x61] :=
  (receiver_push_ignores_level false 97 (.datagram [0x80, 0x61]) 0 1
      ⟨true, true, true, 4096⟩).2 [0x80, 0x61] rfl rfl (by decide) (by decide)
    (by decide) rfl (by decide)

/-- C3 counterexample: when `setsockopt(SO_REUSEADDR)` fails but everything
else succeeds, `udp_receiver_start` still returns 0 and spawns the worker —
setsockopt errors are only logged, contradicting "fails on any socket error
during setup". -/
theorem udp_receiver_start_cex :
    (⟨true, false, true, true, true, true, true⟩ : SocketEnv).reuseOk = false ∧
    udp_receiver_start false 5600 ⟨true, false, true, true, true, true, true⟩ =
      (0, [.createSocket, .setReuseAddr, .setRcvbuf UDP_RCVBUF_BYTES,
           .setNonblocking, .bindSocket 5600, .spawnWorker]) := by
  constructor
  · rfl
  · decide

/-- C3 (amended: start fails, without spawning the worker, exactly when
`socket()`, `bind()` or the thread spawn fails; failures of the
`SO_REUSEADDR`/`SO_RCVBUF` setsockopts and of the `O_NONBLOCK` fcntl are
logged and setup continues; whenever the socket is created, `SO_REUSEADDR`
is set and `SO_RCVBUF` is set to 8 MiB). -/
theorem udp_receiver_start_spec (port : Int) (env : SocketEnv) :
    ((udp_receiver_start false port env).1 = -1 ↔
      (env.socketOk = false ∨ env.bindOk = false ∨ env.threadOk = false)) ∧
    (SetupAction.spawnWorker ∈ (udp_receiver_start false port env).2 ↔
      (env.socketOk = true ∧ env.bindOk = true ∧ env.threadOk = true)) ∧
    (env.socketOk = true →
      SetupAction.setReuseAddr ∈ (udp_receiver_start false port env).2 ∧
      SetupAction.setRcvbuf (8 * 1024 * 1024) ∈ (udp_receiver_start false port env).2) := by
  obtain ⟨s, r, rb, fg, fs, b, t⟩ := env
  cases s <;> cases b <;> cases t <;> cases fg <;>
    simp [udp_receiver_start, UDP_RCVBUF_BYTES]

/-- C3 witness: in the all-success environment the worker is spawned with
the 8 MiB receive buffer configured. -/
theorem udp_receiver_start_spec_witness :
    (⟨true, true, true, true, true, true, true⟩ : SocketEnv).socketOk = true ∧
    SetupAction.setRcvbuf (8 * 1024 * 1024) ∈
      (udp_receiver_start false 5600 ⟨true, true, true, true, true, true, true⟩).2 :=
  ⟨rfl, ((udp_receiver_start_spec 5600 ⟨true, true, true, true, true, true, true⟩).2.2 rfl).2⟩

/-- C4 counterexample: `--appsink-max-buffers 0` parses (positivity is not
required anywhere), and the sink is then configured with 12 buffers, not the
configured 0 — so "max-buffers equal to the configured value" fails. -/
theorem appsink_max_buffers_cex :
    parse_int_c "0".toList = some 0 ∧
    pipeline_appsink_max_buffers 0 = 12 ∧
    (12 : Nat) ≠ (0 : Int).toNat := by
  refine ⟨by decide, by decide, by decide⟩

/-- C4 (amended: the sink's max-buffers equals `appsink_max_buffers` whenever
that value is positive — the default is 4 — and falls back to 12 when it is
not positive; drop-on-overflow is enabled). -/
theorem appsink_max_buffers_spec (v : Int) :
    (0 < v → pipeline_appsink_max_buffers v = v.toNat) ∧
    (v ≤ 0 → pipeline_appsink_max_buffers v = 12) ∧
    pipeline_appsink_drop = true ∧
    cfg_defaults.appsink_max_buffers = 4 := by
  refine ⟨?_, ?_, rfl, by decide⟩
  · intro h
    simp [pipeline_appsink_max_buffers, h]
  · intro h
    have : ¬ (0 < v) := by omega
    simp [pipeline_appsink_max_buffers, this]

/-- C4 witness: the default value 4 is used verbatim. -/
theorem appsink_max_buffers_spec_witness :
    (0 : Int) < 4 ∧ pipeline_appsink_max_buffers 4 = (4 : Int).toNat :=
  ⟨by decide, (appsink_max_buffers_spec 4).1 (by decide)⟩

/-- C7: for an access unit whose mapped size is non-zero and at most
`max_packet`, with a recorder installed, the consumer takes the recorder
lock, delivers to the recorder strictly inside the lock, releases the lock,
and only afterwards feeds the decoder — so recorder delivery happens before
decoder delivery of the same AU. -/
theorem au_consumer_order (buf : AuBuffer) (mp : Nat)
    (hmap : buf.mapOk = true) (h0 : 0 < buf.size) (hle : buf.size ≤ mp) :
    au_iteration_events true buf mp =
      [.recLock, .recDeliver, .recUnlock, .decoderFeed] ∧
    (au_iteration_events true buf mp).indexOf AuEvent.recLock <
      (au_iteration_events true buf mp).indexOf AuEvent.recDeliver ∧
    (au_iteration_events true buf mp).indexOf AuEvent.recDeliver <
      (au_iteration_events true buf mp).indexOf AuEvent.recUnlock ∧
    (au_iteration_events true buf mp).indexOf AuEvent.recUnlock <
      (au_iteration_events true buf mp).indexOf AuEvent.decoderFeed := by
  have ht : au_iteration_events true buf mp =
      [.recLock, .recDeliver, .recUnlock, .decoderFeed] := by
    simp [au_iteration_events, hmap, h0, hle]
  refine ⟨ht, ?_, ?_, ?_⟩ <;> rw [ht] <;> decide

/-- C7 witness: a 100-byte AU under the 1 MiB fallback bound. -/
theorem au_consumer_order_witness :
    (⟨100, true, some 0, none⟩ : AuBuffer).mapOk = true ∧
    au_iteration_events true ⟨100, true, some 0, none⟩ (1024 * 1024) =
      [.recLock, .recDeliver, .recUnlock, .decoderFeed] :=
  ⟨rfl, (au_consumer_order ⟨100, true, some 0, none⟩ (1024 * 1024) rfl
    (by decide) (by decide)).1⟩

/-- C8: enabling recording while a recorder is already installed returns 0,
keeps exactly the original recorder and discards the newly built writer;
disabling with no recorder installed destroys nothing and leaves the slot
empty — so enable-after-enable and disable-after-disable are no-ops. -/
theorem recording_toggle_idempotent (w0 wN : Nat) (path : CStr)
    (hpath : path ≠ []) :
    pipeline_enable_recording (some w0) path (some wN) = (0, some w0, true) ∧
    pipeline_disable_recording none = (none, false) ∧
    (∀ installed : Option Nat,
      pipeline_disable_recording (pipeline_disable_recording installed).1 =
        (none, false)) := by
  refine ⟨?_, rfl, ?_⟩
  · simp [pipeline_enable_recording, hpath]
  · intro installed
    cases installed <;> rfl

/-- C8 witness: enabling a second time over writer 0 discards writer 1. -/
theorem recording_toggle_idempotent_witness :
    ("/media".toList : CStr) ≠ [] ∧
    pipeline_enable_recording (some 0) "/media".toList (some 1) = (0, some 0, true) :=
  ⟨by decide, (recording_toggle_idempotent 0 1 "/media".toList (by decide)).1⟩

/-- Chains compose along the default last element. -/
theorem chain_append_getLastD {R : PipelineStateEnum → PipelineStateEnum → Bool}
    (a : PipelineStateEnum) (l₁ l₂ : List PipelineStateEnum)
    (h₁ : List.Chain (fun x y => R x y = true) a l₁)
    (h₂ : List.Chain (fun x y => R x y = true) (l₁.getLastD a) l₂) :
    List.Chain (fun x y => R x y = true) a (l₁ ++ l₂) := by
  induction l₁ generalizing a with
  | nil => exact h₂
  | cons b l ih =>
    rw [List.getLastD_cons] at h₂
    cases h₁ with
    | cons hab h =>
      exact List.Chain.cons hab (ih b h h₂)

set_option maxHeartbeats 2000000 in
/-- Every single lifecycle event, from any shared state, emits a sequence of
observable-state assignments that chains under `codeAllows` and ends at the
event's final state. -/
theorem pipeline_step_chain :
    ∀ (ps : PipelineSM) (op : PipelineOp),
      List.Chain (fun x y => codeAllows x y = true) ps.state (pipeline_step ps op).2 ∧
      ((pipeline_step ps op).2).getLastD ps.state = (pipeline_step ps op).1.state := by
  intro ps op
  obtain ⟨st, bt, br, sr, ee⟩ := ps
  cases op with
  | start ok =>
    cases ok <;> cases st <;> cases bt <;> cases br <;> cases sr <;> cases ee <;>
      simp [pipeline_step, List.chain_cons, codeAllows, specAllows]
  | stop =>
    cases st <;> cases bt <;> cases br <;> cases sr <;> cases ee <;>
      simp [pipeline_step, List.chain_cons, codeAllows, specAllows]
  | pollChild =>
    cases st <;> cases bt <;> cases br <;> cases sr <;> cases ee <;>
      simp [pipeline_step, List.chain_cons, codeAllows, specAllows]
  | busError =>
    cases st <;> cases bt <;> cases br <;> cases sr <;> cases ee <;>
      simp [pipeline_step, List.chain_cons, codeAllows, specAllows]
  | busEos =>
    cases st <;> cases bt <;> cases br <;> cases sr <;> cases ee <;>
      simp [pipeline_step, List.chain_cons, codeAllows, specAllows]
  | busObservesStop =>
    cases st <;> cases bt <;> cases br <;> cases sr <;> cases ee <;>
      simp [pipeline_step, List.chain_cons, codeAllows, specAllows]

/-- Runs of lifecycle events chain under `codeAllows` from any state. -/
theorem pipeline_run_chain (ps : PipelineSM) (ops : List PipelineOp) :
    List.Chain (fun x y => codeAllows x y = true) ps.state (pipeline_run ps ops).2 := by
  induction ops generalizing ps with
  | nil => exact List.Chain.nil
  | cons op rest ih =>
    have hstep := pipeline_step_chain ps op
    exact chain_append_getLastD _ _ _ hstep.1 (by rw [hstep.2]; exact ih _)

/-- C2 counterexample: starting successfully, receiving EOS on the bus, and
then polling the child makes the observable state jump directly from RUNNING
to STOPPED (`pipeline_poll_child` assigns STOPPED without passing through
STOPPING), a transition outside the claimed set. -/
theorem pipeline_spec_transitions_cex :
    observedStates [.start true, .busEos, .pollChild] =
      [.stopped, .running, .stopped] ∧
    specAllows .running .stopped = false ∧
    ¬ List.Chain' (fun a b => specAllows a b = true)
        (observedStates [.start true, .busEos, .pollChild]) := by
  have hobs : observedStates [.start true, .busEos, .pollChild] =
      [.stopped, .running, .stopped] := by decide
  refine ⟨hobs, rfl, ?_⟩
  intro h
  rw [hobs] at h
  simp [List.chain'_cons, specAllows] at h

/-- C2 (amended: besides `STOPPED→RUNNING` on successful start,
`RUNNING→STOPPING` on a stop request and `STOPPING→STOPPED` after the worker
threads join, the code also performs `RUNNING→STOPPED` in
`pipeline_poll_child` after the bus monitor has exited on error or EOS; no
further transitions are observable): every observable state history of any
event sequence chains under this transition set. -/
theorem pipeline_state_transitions (ops : List PipelineOp) :
    List.Chain' (fun a b => codeAllows a b = true) (observedStates ops) :=
  pipeline_run_chain initialPS ops

/-- `splitAtChar` finds nothing exactly when no character matches. -/
theorem splitAtChar_eq_none (p : Char → Bool) (l : CStr) :
    splitAtChar p l = none ↔ ∀ c ∈ l, p c = false := by
  induction l with
  | nil => simp [splitAtChar]
  | cons c cs ih =>
    cases hc : p c with
    | true => simp [splitAtChar, hc]
    | false => simp [splitAtChar, hc, ih]

/-- On failure `set_int_field` leaves the configuration untouched. -/
theorem set_int_field_fail (value : CStr) (write : Int → AppCfg) (cfg : AppCfg) :
    (set_int_field value write cfg).1 = -1 → (set_int_field value write cfg).2 = cfg := by
  cases hp : parse_int_c value <;> simp [set_int_field, hp]

/-- On failure `set_bool_field` leaves the configuration untouched. -/
theorem set_bool_field_fail (value : CStr) (write : Int → AppCfg) (cfg : AppCfg) :
    (set_bool_field value write cfg).1 = -1 → (set_bool_field value write cfg).2 = cfg := by
  cases hp : parse_bool_c value <;> simp [set_bool_field, hp]

/-- On failure `set_mode_field` leaves the configuration untouched. -/
theorem set_mode_field_fail (value : CStr) (write : RecordMode → AppCfg) (cfg : AppCfg) :
    (set_mode_field value write cfg).1 = -1 → (set_mode_field value write cfg).2 = cfg := by
  cases hp : cfg_parse_record_mode value <;> simp [set_mode_field, hp]

/-- Whenever `handle_global_key` reports failure (-1), the configuration is
untouched. -/
theorem handle_global_key_fail (key value : CStr) (cfg : AppCfg) :
    (handle_global_key key value cfg).1 = -1 →
    (handle_global_key key value cfg).2 = cfg := by
  intro h
  rw [handle_global_key.eq_def] at h ⊢
  by_cases h1 : strcaseEq key "card_path".toList = true
  · rw [if_pos h1] at h; simp at h
  · rw [if_neg h1] at h ⊢
    by_cases h2 : strcaseEq key "connector".toList = true ∨
        strcaseEq key "connector_name".toList = true
    · rw [if_pos h2] at h; simp at h
    · rw [if_neg h2] at h ⊢
      by_cases h3 : strcaseEq key "plane_id".toList = true
      · rw [if_pos h3] at h ⊢
        exact set_int_field_fail value _ cfg h
      · rw [if_neg h3] at h ⊢
        by_cases h4 : strcaseEq key "udp_port".toList = true
        · rw [if_pos h4] at h ⊢
          exact set_int_field_fail value _ cfg h
        · rw [if_neg h4] at h ⊢
          by_cases h5 : strcaseEq key "vid_pt".toList = true ∨
              strcaseEq key "video_payload_type".toList = true
          · rw [if_pos h5] at h ⊢
            exact set_int_field_fail value _ cfg h
          · rw [if_neg h5] at h ⊢
            by_cases h6 : strcaseEq key "appsink_max_buffers".toList = true
            · rw [if_pos h6] at h ⊢
              exact set_int_field_fail value _ cfg h
            · rw [if_neg h6] at h ⊢
              by_cases h7 : strcaseEq key "gst_log".toList = true
              · rw [if_pos h7] at h ⊢
                exact set_bool_field_fail value _ cfg h
              · rw [if_neg h7] at h ⊢
                by_cases h8 : strcaseEq (key.take 7) "record.".toList = true
                · rw [if_pos h8] at h ⊢
                  by_cases h9 : strcaseEq (key.drop 7) "enable".toList = true
                  · rw [if_pos h9] at h ⊢
                    exact set_bool_field_fail value _ cfg h
                  · rw [if_neg h9] at h ⊢
                    by_cases h10 : strcaseEq (key.drop 7) "output_path".toList = true ∨
                        strcaseEq (key.drop 7) "path".toList = true
                    · rw [if_pos h10] at h; simp at h
                    · rw [if_neg h10] at h ⊢
                      by_cases h11 : strcaseEq (key.drop 7) "mode".toList = true
                      · rw [if_pos h11] at h ⊢
                        exact set_mode_field_fail value _ cfg h
                      · rw [if_neg h11]
                · rw [if_neg h8]

/-- Whenever `handle_section_key` reports failure (-1), the configuration is
untouched. -/
theorem handle_section_key_fail (sect key value : CStr) (cfg : AppCfg) :
    (handle_section_key sect key value cfg).1 = -1 →
    (handle_section_key sect key value cfg).2 = cfg := by
  intro h
  rw [handle_section_key.eq_def] at h ⊢
  by_cases s1 : strcaseEq sect "video".toList = true
  · rw [if_pos s1] at h ⊢
    exact handle_global_key_fail key value cfg h
  · rw [if_neg s1] at h ⊢
    by_cases s2 : strcaseEq sect "record".toList = true
    · rw [if_pos s2] at h ⊢
      by_cases k1 : strcaseEq key "enable".toList = true
      · rw [if_pos k1] at h ⊢
        exact set_bool_field_fail value _ cfg h
      · rw [if_neg k1] at h ⊢
        by_cases k2 : strcaseEq key "output_path".toList = true ∨
            strcaseEq key "path".toList = true
        · rw [if_pos k2] at h; simp at h
        · rw [if_neg k2] at h ⊢
          by_cases k3 : strcaseEq key "mode".toList = true
          · rw [if_pos k3] at h ⊢
            exact set_mode_field_fail value _ cfg h
          · rw [if_neg k3]
    · rw [if_neg s2] at h ⊢
      exact handle_global_key_fail key value cfg h

/-- C10: `cfg_load_file` fails only when the file cannot be opened; a file
that opens always yields success.  Malformed lines — no `=` outside a
section header, or a `[` line with no closing `]` — are skipped without
touching the section or the configuration, and every key/value pair the
handlers reject (unknown key, invalid integer/boolean/mode value) leaves the
configuration exactly as it was. -/
theorem cfg_load_file_spec :
    (∀ (file : Option (List CStr)) (cfg : AppCfg),
      cfg_load_file file cfg = none ↔ file = none) ∧
    (∀ sect key value cfg,
      (handle_section_key sect key value cfg).1 = -1 →
      (handle_section_key sect key value cfg).2 = cfg) ∧
    (∀ (st : CStr × AppCfg) (line : CStr),
      (effectiveContent line).head? ≠ some '[' →
      '=' ∉ effectiveContent line →
      ini_process_line st line = st) ∧
    (∀ (st : CStr × AppCfg) (line : CStr),
      (effectiveContent line).head? = some '[' →
      ']' ∉ effectiveContent line →
      ini_process_line st line = st) := by
  refine ⟨?_, handle_section_key_fail, ?_, ?_⟩
  · intro file cfg
    cases file <;> simp [cfg_load_file]
  · intro st line hhead heq
    cases hc : effectiveContent line with
    | nil => simp [ini_process_line, hc]
    | cons c rest =>
      rw [hc] at hhead heq
      have hcbr : ¬ c = '[' := by
        intro h
        exact hhead (by rw [h]; rfl)
      have hsplit : splitAtChar (fun d => d = '=') (c :: rest) = none := by
        rw [splitAtChar_eq_none]
        intro d hd
        simp only [decide_eq_false_iff_not]
        intro hde
        exact heq (hde ▸ hd)
      simp [ini_process_line, hc, hcbr, hsplit]
  · intro st line hhead hbr
    cases hc : effectiveContent line with
    | nil => simp [ini_process_line, hc]
    | cons c rest =>
      rw [hc] at hhead hbr
      have hcbr : c = '[' := by
        simpa using hhead
      have hsplit : splitAtChar (fun d => d = ']') rest = none := by
        rw [splitAtChar_eq_none]
        intro d hd
        simp only [decide_eq_false_iff_not]
        intro hde
        exact hbr (by simp [hde ▸ hd])
      simp [ini_process_line, hc, hcbr, hsplit]

/-- C10 witness: a missing file fails; a line with no `=`, and an unknown
key inside `[video]`, both leave the configuration untouched. -/
theorem cfg_load_file_spec_witness :
    cfg_load_file none cfg_defaults = none ∧
    ini_process_line ([], cfg_defaults) "no equals sign".toList = ([], cfg_defaults) ∧
    (handle_section_key "video".toList "unknown_key".toList "1".toList cfg_defaults).2 =
      cfg_defaults :=
  ⟨(cfg_load_file_spec.1 none cfg_defaults).mpr rfl,
   cfg_load_file_spec.2.2.1 ([], cfg_defaults) "no equals sign".toList
     (by decide) (by decide),
   cfg_load_file_spec.2.1 "video".toList "unknown_key".toList "1".toList cfg_defaults
     (by decide)⟩

/-- The empty argument list preserves everything. -/
theorem cli_preserves_nil (cfg : AppCfg) : cli_preserves [] cfg := by
  intro cfg₂ c hok
  simp only [cli_flags_pass, CliResult.ok.injEq] at hok
  refine ⟨cfg₂, by simp only [cli_flags_pass], ?_⟩
  intro f
  refine ⟨?_, ?_⟩
  · intro hset
    simp [cli_sets_field] at hset
  · intro _
    subst hok
    exact ⟨rfl, rfl⟩

/-- Argument lists the flag loop rejects preserve everything vacuously. -/
theorem cli_preserves_err (args : List CStr) (cfg : AppCfg)
    (herr : ∀ cfg0 : AppCfg, cli_flags_pass args cfg0 = .err) :
    cli_preserves args cfg := by
  intro cfg₂ c hok
  rw [herr] at hok
  cases hok

/-- One step of the flag loop: if processing `args` from any start first
applies the configuration-independent update `upd` (whose written fields are
`xs`) and then continues with `rest₁`, then preservation of `rest₁` lifts to
`args`. -/
theorem cli_step_core (args rest₁ : List CStr) (upd : AppCfg → AppCfg)
    (xs : List CfgField) (cfg : AppCfg)
    (hpass : ∀ cfg0, cli_flags_pass args cfg0 = cli_flags_pass rest₁ (upd cfg0))
    (hsets : ∀ f, cli_sets_field args f = (decide (f ∈ xs) || cli_sets_field rest₁ f))
    (hsame : ∀ f ∈ xs, ∀ c1 c2 : AppCfg, getField f (upd c1) = getField f (upd c2))
    (hother : ∀ (f : CfgField), f ∉ xs → ∀ c0 : AppCfg, getField f (upd c0) = getField f c0)
    (ih : cli_preserves rest₁ (upd cfg)) :
    cli_preserves args cfg := by
  intro cfg₂ c hok
  rw [hpass] at hok
  obtain ⟨c₂, h2, hf⟩ := ih (upd cfg₂) c hok
  refine ⟨c₂, by rw [hpass]; exact h2, ?_⟩
  intro f
  refine ⟨?_, ?_⟩
  · intro hset
    rw [hsets] at hset
    by_cases hrest : cli_sets_field rest₁ f = true
    · exact (hf f).1 hrest
    · have hmem : f ∈ xs := by
        rcases Bool.or_eq_true_iff.mp hset with hx | hx
        · exact of_decide_eq_true hx
        · exact absurd hx hrest
      have hrf : cli_sets_field rest₁ f = false := by
        cases hx : cli_sets_field rest₁ f
        · rfl
        · exact absurd hx hrest
      obtain ⟨ha, hb⟩ := (hf f).2 hrf
      rw [ha, hb]
      exact hsame f hmem cfg cfg₂
  · intro hset
    rw [hsets] at hset
    have hboth := Bool.or_eq_false_iff.mp hset
    have hmem : f ∉ xs := of_decide_eq_false hboth.1
    obtain ⟨ha, hb⟩ := (hf f).2 hboth.2
    exact ⟨ha.trans (hother f hmem cfg), hb.trans (hother f hmem cfg₂)⟩

set_option maxHeartbeats 4000000 in
/-- Every argument list preserves CLI-written fields independently of the
starting configuration, and passes untouched fields through. -/
theorem cli_flags_preserves : ∀ (args : List CStr) (cfg : AppCfg), cli_preserves args cfg := by
  intro args cfg
  induction args, cfg using cli_flags_pass.induct with
  | case1 cfg =>
    exact cli_preserves_nil cfg
  | case2 cfg =>
    intro cfg₂ c hok
    simp +decide [cli_flags_pass] at hok
    refine ⟨cfg₂, by simp +decide [cli_flags_pass], ?_⟩
    intro f
    refine ⟨?_, ?_⟩
    · intro hset
      simp +decide [cli_sets_field] at hset
    · intro _
      subst hok
      exact ⟨rfl, rfl⟩
  | case3 cfg p rest ih =>
    refine cli_step_core _ rest (fun c0 => c0) [] cfg ?_ ?_ ?_ ?_ ih
    · intro cfg0; simp +decide [cli_flags_pass]
    · intro f; simp +decide [cli_sets_field]
    · intro f hf c1 c2; simp at hf
    · intro f hf c0; rfl
  | case4 cfg h1 =>
    exact cli_preserves_err _ _ (fun cfg0 => by simp +decide [cli_flags_pass])
  | case5 cfg p rest h1 ih =>
    refine cli_step_core _ rest (fun c0 => { c0 with card_path := copy_string 63 p })
      [.cardPath] cfg ?_ ?_ ?_ ?_ ih
    · intro cfg0; simp +decide [cli_flags_pass]
    · intro f; simp +decide [cli_sets_field]
    · intro f hf c1 c2; simp at hf; subst hf; simp [getField]
    · intro f hf c0
      have hne : f ≠ CfgField.cardPath := by simpa using hf
      cases f <;> simp_all [getField]
  | case6 cfg h1 h2 =>
    exact cli_preserves_err _ _ (fun cfg0 => by simp +decide [cli_flags_pass])
  | case7 cfg p rest h1 h2 ih =>
    refine cli_step_core _ rest (fun c0 => { c0 with connector_name := copy_string 31 p })
      [.connectorName] cfg ?_ ?_ ?_ ?_ ih
    · intro cfg0; simp +decide [cli_flags_pass]
    · intro f; simp +decide [cli_sets_field]
    · intro f hf c1 c2; simp at hf; subst hf; simp [getField]
    · intro f hf c0
      have hne : f ≠ CfgField.connectorName := by simpa using hf
      cases f <;> simp_all [getField]
  | case8 cfg h1 h2 h3 =>
    exact cli_preserves_err _ _ (fun cfg0 => by simp +decide [cli_flags_pass])
  | case9 cfg p rest x h1 h2 h3 =>
    exact cli_preserves_err _ _ (fun cfg0 => by simp +decide [cli_flags_pass, x])
  | case10 cfg p rest n x h1 h2 h3 ih =>
    refine cli_step_core _ rest (fun c0 => { c0 with plane_id := n })
      [.planeId] cfg ?_ ?_ ?_ ?_ ih
    · intro cfg0; simp +decide [cli_flags_pass, x]
    · intro f; simp +decide [cli_sets_field]
    · intro f hf c1 c2; simp at hf; subst hf; simp [getField]
    · intro f hf c0
      have hne : f ≠ CfgField.planeId := by simpa using hf
      cases f <;> simp_all [getField]
  | case11 cfg h1 h2 h3 h4 =>
    exact cli_preserves_err _ _ (fun cfg0 => by simp +decide [cli_flags_pass])
  | case12 cfg p rest x h1 h2 h3 h4 =>
    exact cli_preserves_err _ _ (fun cfg0 => by simp +decide [cli_flags_pass, x])
  | case13 cfg p rest n x h1 h2 h3 h4 ih =>
    refine cli_step_core _ rest (fun c0 => { c0 with udp_port := n })
      [.udpPort] cfg ?_ ?_ ?_ ?_ ih
    · intro cfg0; simp +decide [cli_flags_pass, x]
    · intro f; simp +decide [cli_sets_field]
    · intro f hf c1 c2; simp at hf; subst hf; simp [getField]
    · intro f hf c0
      have hne : f ≠ CfgField.udpPort := by simpa using hf
      cases f <;> simp_all [getField]
  | case14 cfg h1 h2 h3 h4 h5 =>
    exact cli_preserves_err _ _ (fun cfg0 => by simp +decide [cli_flags_pass])
  | case15 cfg p rest x h1 h2 h3 h4 h5 =>
    exact cli_preserves_err _ _ (fun cfg0 => by simp +decide [cli_flags_pass, x])
  | case16 cfg p rest n x h1 h2 h3 h4 h5 ih =>
    refine cli_step_core _ rest (fun c0 => { c0 with vid_pt := n })
      [.vidPt] cfg ?_ ?_ ?_ ?_ ih
    · intro cfg0; simp +decide [cli_flags_pass, x]
    · intro f; simp +decide [cli_sets_field]
    · intro f hf c1 c2; simp at hf; subst hf; simp [getField]
    · intro f hf c0
      have hne : f ≠ CfgField.vidPt := by simpa using hf
      cases f <;> simp_all [getField]
  | case17 cfg h1 h2 h3 h4 h5 h6 =>
    exact cli_preserves_err _ _ (fun cfg0 => by simp +decide [cli_flags_pass])
  | case18 cfg p rest x h1 h2 h3 h4 h5 h6 =>
    exact cli_preserves_err _ _ (fun cfg0 => by simp +decide [cli_flags_pass, x])
  | case19 cfg p rest n x h1 h2 h3 h4 h5 h6 ih =>
    refine cli_step_core _ rest (fun c0 => { c0 with appsink_max_buffers := n })
      [.appsinkMaxBuffers] cfg ?_ ?_ ?_ ?_ ih
    · intro cfg0; simp +decide [cli_flags_pass, x]
    · intro f; simp +decide [cli_sets_field]
    · intro f hf c1 c2; simp at hf; subst hf; simp [getField]
    · intro f hf c0
      have hne : f ≠ CfgField.appsinkMaxBuffers := by simpa using hf
      cases f <;> simp_all [getField]
  | case20 cfg cfg' h1 h2 h3 h4 h5 h6 h7 ih =>
    refine cli_step_core _ []
      (fun c0 => { c0 with record := { c0.record with enable := 1 } })
      [.recordEnable] cfg ?_ ?_ ?_ ?_ ih
    · intro cfg0; simp +decide [cli_flags_pass]
    · intro f; simp +decide [cli_sets_field]
    · intro f hf c1 c2; simp at hf; subst hf; simp [getField]
    · intro f hf c0
      have hne : f ≠ CfgField.recordEnable := by simpa using hf
      cases f <;> simp_all [getField]
  | case21 cfg cfg' p rest htake h1 h2 h3 h4 h5 h6 h7 ih =>
    refine cli_step_core _ rest
      (fun c0 => { c0 with record :=
        { c0.record with enable := 1, output_path := copy_string 4095 p } })
      [.recordEnable, .recordOutputPath] cfg ?_ ?_ ?_ ?_ ih
    · intro cfg0
      have htake' : ¬ List.take 2 p = ['-', '-'] := htake
      simp +decide [cli_flags_pass, htake']
    · intro f
      have htake' : ¬ List.take 2 p = ['-', '-'] := htake
      simp +decide [cli_sets_field, htake']
    · intro f hf c1 c2
      simp at hf
      rcases hf with hf | hf <;> subst hf <;> simp [getField]
    · intro f hf c0
      have hne : f ≠ CfgField.recordEnable ∧ f ≠ CfgField.recordOutputPath := by
        simpa using hf
      cases f <;> simp_all [getField]
  | case22 cfg cfg' p rest hntake h1 h2 h3 h4 h5 h6 h7 ih =>
    refine cli_step_core _ (p :: rest)
      (fun c0 => { c0 with record := { c0.record with enable := 1 } })
      [.recordEnable] cfg ?_ ?_ ?_ ?_ ih
    · intro cfg0
      have htake' : List.take 2 p = ['-', '-'] := not_not.mp hntake
      simp +decide [cli_flags_pass, htake']
    · intro f
      have htake' : List.take 2 p = ['-', '-'] := not_not.mp hntake
      simp +decide [cli_sets_field, htake']
    · intro f hf c1 c2; simp at hf; subst hf; simp [getField]
    · intro f hf c0
      have hne : f ≠ CfgField.recordEnable := by simpa using hf
      cases f <;> simp_all [getField]
  | case23 cfg h1 h2 h3 h4 h5 h6 h7 h8 =>
    exact cli_preserves_err _ _ (fun cfg0 => by simp +decide [cli_flags_pass])
  | case24 cfg p rest x h1 h2 h3 h4 h5 h6 h7 h8 =>
    exact cli_preserves_err _ _ (fun cfg0 => by simp +decide [cli_flags_pass, x])
  | case25 cfg p rest m x h1 h2 h3 h4 h5 h6 h7 h8 ih =>
    refine cli_step_core _ rest
      (fun c0 => { c0 with record := { c0.record with mode := m } })
      [.recordModeField] cfg ?_ ?_ ?_ ?_ ih
    · intro cfg0; simp +decide [cli_flags_pass, x]
    · intro f; simp +decide [cli_sets_field]
    · intro f hf c1 c2; simp at hf; subst hf; simp [getField]
    · intro f hf c0
      have hne : f ≠ CfgField.recordModeField := by simpa using hf
      cases f <;> simp_all [getField]
  | case26 rest cfg h1 h2 h3 h4 h5 h6 h7 h8 h9 ih =>
    refine cli_step_core _ rest
      (fun c0 => { c0 with record := { c0.record with enable := 0 } })
      [.recordEnable] cfg ?_ ?_ ?_ ?_ ih
    · intro cfg0
      rw [cli_flags_pass.eq_def]
      simp +decide
    · intro f
      rw [cli_sets_field.eq_def]
      simp +decide
    · intro f hf c1 c2; simp at hf; subst hf; simp [getField]
    · intro f hf c0
      have hne : f ≠ CfgField.recordEnable := by simpa using hf
      cases f <;> simp_all [getField]
  | case27 rest cfg h1 h2 h3 h4 h5 h6 h7 h8 h9 h10 ih =>
    refine cli_step_core _ rest (fun c0 => { c0 with gst_log := 1 })
      [.gstLog] cfg ?_ ?_ ?_ ?_ ih
    · intro cfg0
      rw [cli_flags_pass.eq_def]
      simp +decide
    · intro f
      rw [cli_sets_field.eq_def]
      simp +decide
    · intro f hf c1 c2; simp at hf; subst hf; simp [getField]
    · intro f hf c0
      have hne : f ≠ CfgField.gstLog := by simpa using hf
      cases f <;> simp_all [getField]
  | case28 rest cfg h1 h2 h3 h4 h5 h6 h7 h8 h9 h10 h11 ih =>
    refine cli_step_core _ rest (fun c0 => c0) [] cfg ?_ ?_ ?_ ?_ ih
    · intro cfg0
      rw [cli_flags_pass.eq_def]
      simp +decide
    · intro f
      rw [cli_sets_field.eq_def]
      simp +decide
    · intro f hf c1 c2; simp at hf
    · intro f hf c0; rfl
  | case29 arg rest cfg h1 h2 h3 h4 h5 h6 h7 h8 h9 h10 h11 h12 =>
    refine cli_preserves_err _ _ (fun cfg0 => ?_)
    simp at h1 h2 h3 h4 h5 h6 h7 h8 h9 h10 h11 h12
    rw [cli_flags_pass.eq_def]
    simp [h1, h2, h3, h4, h5, h6, h7, h8, h9, h10, h11, h12]

/-- C6: configuration resolution is defaults first, then the INI file named
by `--config` (applied during the first scan pass of `parse_cli`), then the
CLI flags (second pass) — so for every key a CLI flag sets, the effective
value equals the value the pure CLI run (defaults plus flags, no INI file)
produces, whatever the INI file contains and wherever `--config` appears
among the arguments. -/
theorem parse_cli_cli_wins (files : CStr → Option (List CStr)) (args : List CStr)
    (c : AppCfg) (f : CfgField)
    (hok : parse_cli files args = .ok c)
    (hset : cli_sets_field args f = true) :
    ∃ c₀, cli_flags_pass args cfg_defaults = .ok c₀ ∧ getField f c = getField f c₀ := by
  unfold parse_cli at hok
  rcases hcp : cli_config_pass files args cfg_defaults with _ | _ | cfg1 <;>
    simp only [hcp] at hok
  · cases hok
  · cases hok
  · obtain ⟨c₀, h₀, hf⟩ := cli_flags_preserves args cfg1 cfg_defaults c hok
    exact ⟨c₀, h₀, (hf f).1 hset⟩

/-- C6 witness: with an INI file setting `udp_port = 9000` and the argument
list `--udp-port 7777 --config x.ini` (the config flag after the port flag),
the effective port equals the pure-CLI port. -/
theorem parse_cli_cli_wins_witness :
    cli_sets_field ["--udp-port".toList, "7777".toList, "--config".toList, "x.ini".toList]
      CfgField.udpPort = true ∧
    (∃ c₀, cli_flags_pass
        ["--udp-port".toList, "7777".toList, "--config".toList, "x.ini".toList]
        cfg_defaults = .ok c₀ ∧
      getField CfgField.udpPort
        { cfg_defaults with config_path := "x.ini".toList, udp_port := 7777 } =
      getField CfgField.udpPort c₀) := by
  have hset : cli_sets_field
      ["--udp-port".toList, "7777".toList, "--config".toList, "x.ini".toList]
      CfgField.udpPort = true := by
    rw [cli_sets_field.eq_def]
    simp +decide
  have hok : parse_cli (fun _ => some ["udp_port = 9000".toList])
      ["--udp-port".toList, "7777".toList, "--config".toList, "x.ini".toList] =
      .ok { cfg_defaults with config_path := "x.ini".toList, udp_port := 7777 } := by
    have h1 : cli_config_pass (fun _ => some ["udp_port = 9000".toList])
        ["--udp-port".toList, "7777".toList, "--config".toList, "x.ini".toList]
        cfg_defaults =
        .ok { cfg_defaults with config_path := "x.ini".toList, udp_port := 9000 } := by
      decide
    simp only [parse_cli, h1]
    rw [cli_flags_pass.eq_def]
    simp +decide
    have hp : parse_int_c ['7', '7', '7', '7'] = some 7777 := by decide
    simp only [hp]
    rw [cli_flags_pass.eq_def]
    simp +decide
    rw [cli_flags_pass.eq_def]
  exact ⟨hset, parse_cli_cli_wins (fun _ => some ["udp_port = 9000".toList]) _ _ _ hok hset⟩

end PixelPilot
